import Mathlib

/-!
Verification of the options-chain analytics and signal engine
(`src/analytics/analytics.py`, `src/signals/signal_engine.py`,
`src/nse_chain/analytics.py`) against its design specification.

Real-valued numeric code (Black–Scholes pricing, premium misalignment) is
embedded over `ℝ`; the combinatorial parts (build-up classification, the
signal engine, the cross-expiry rollover detector) are embedded over `ℚ`/`ℤ`
and are executable.
-/

namespace NseAnalytics

/-- The Gauss error function, the mathematical function computed by
Python's `math.erf`. -/
noncomputable def erf (x : ℝ) : ℝ :=
  (2 / Real.sqrt Real.pi) * ∫ t in (0:ℝ)..x, Real.exp (-(t ^ 2))

/-- `norm_cdf` from `src/analytics/analytics.py`: cumulative standard normal
distribution via the error function. -/
noncomputable def norm_cdf (x : ℝ) : ℝ :=
  0.5 * (1.0 + erf (x / Real.sqrt 2.0))

/-- `bs_call_price` from `src/analytics/analytics.py`: Black–Scholes European
call price, with the degenerate branch returning intrinsic value when
`tau ≤ 0` or `sigma ≤ 0`. -/
noncomputable def bs_call_price (S K r sigma tau : ℝ) : ℝ :=
  if tau ≤ 0 ∨ sigma ≤ 0 then
    max 0.0 (S - K)
  else
    let sqrt_tau := Real.sqrt tau
    let d1 := (Real.log (S / K) + (r + 0.5 * sigma * sigma) * tau) / (sigma * sqrt_tau)
    let d2 := d1 - sigma * sqrt_tau
    S * norm_cdf d1 - K * Real.exp (-r * tau) * norm_cdf d2

/-- `premium_misalignment` from `src/analytics/analytics.py`. -/
noncomputable def premium_misalignment (market_premium theoretical_premium : ℝ) : ℝ :=
  if theoretical_premium = 0 then
    if market_premium ≠ 0 then market_premium else 0.0
  else
    (market_premium - theoretical_premium) / theoretical_premium

/-- `volume_oi_efficiency` from `src/analytics/analytics.py`: the Python code
first coerces `volume` and `oi_change` to `int`, so they are embedded as `ℤ`;
`avg_volume` stays a general numeric value. -/
def volume_oi_efficiency (volume oi_change : ℤ) (avg_volume : ℚ) : ℚ :=
  if avg_volume = 0 ∨ volume = 0 then
    0.0
  else
    ((volume : ℚ) / avg_volume) * ((oi_change : ℚ) / (volume : ℚ))

/-- One per-strike input record of `OptionChainAnalyzer.theoretical_vs_market_map`
(`src/analytics/analytics.py`): the Python dict fields read through `d.get`,
with `none` standing for an absent key. -/
structure SnapshotRow where
  ce_iv : Option ℝ
  ce_price : Option ℝ
  pe_price : Option ℝ

/-- One per-strike output record of `theoretical_vs_market_map`. -/
structure TheoMarketEntry where
  ce_theoretical : ℝ
  ce_market : ℝ
  ce_misal : ℝ
  pe_theoretical : ℝ
  pe_market : ℝ
  pe_misal : ℝ

/-- The loop body of `OptionChainAnalyzer.theoretical_vs_market_map`
(`src/analytics/analytics.py`, lines 290–303) for one strike `s`:
`spot` and `r` are the analyzer's constants, `d` the snapshot row.
The theoretical put premium is the parity expression
`ce_th + s·e^(−r·tau) − spot`, and its misalignment is computed against
`put_th if put_th != 0 else pe_market`. -/
noncomputable def theoretical_vs_market_entry
    (spot r s : ℝ) (d : SnapshotRow) (tau_years : ℝ) : TheoMarketEntry :=
  let ce_th := bs_call_price spot s r (d.ce_iv.getD 0.2) tau_years
  let ce_market := d.ce_price.getD 0.0
  let ce_misal := premium_misalignment ce_market ce_th
  let put_th := ce_th + s * Real.exp (-r * tau_years) - spot
  let pe_market := d.pe_price.getD 0.0
  let pe_misal := premium_misalignment pe_market (if put_th ≠ 0 then put_th else pe_market)
  ⟨ce_th, ce_market, ce_misal, put_th, pe_market, pe_misal⟩

/-- `OptionChainAnalyzer.theoretical_vs_market_map`: the snapshot is a finite
map strike → row, embedded as an association list. -/
noncomputable def theoretical_vs_market_map
    (spot r : ℝ) (snapshot : List (ℝ × SnapshotRow)) (tau_years : ℝ) :
    List (ℝ × TheoMarketEntry) :=
  snapshot.map (fun p => (p.1, theoretical_vs_market_entry spot r p.1 p.2 tau_years))

/-- `classify_buildup` from `src/signals/signal_engine.py` (upper-case labels).
The cascaded Python `if` chain is mirrored literally. -/
def classify_buildup (price_change oi_change : ℚ) : String :=
  if price_change > 0 ∧ oi_change > 0 then "LONG_BUILDUP"
  else if price_change < 0 ∧ oi_change > 0 then "SHORT_BUILDUP"
  else if price_change > 0 ∧ oi_change < 0 then "SHORT_COVERING"
  else if price_change < 0 ∧ oi_change < 0 then "LONG_UNWINDING"
  else "NEUTRAL"

/-- `classify_build_up` from `src/nse_chain/analytics.py` (lower-case labels),
structurally identical to `classify_buildup`. -/
def classify_build_up (price_change oi_change : ℚ) : String :=
  if price_change > 0 ∧ oi_change > 0 then "long_build_up"
  else if price_change < 0 ∧ oi_change > 0 then "short_build_up"
  else if price_change > 0 ∧ oi_change < 0 then "short_covering"
  else if price_change < 0 ∧ oi_change < 0 then "long_unwinding"
  else "neutral"

/-- The sign-pair lookup table of specification §4.2, written directly from the
five table rows (spec side of the refinement for claim C5). -/
def classify_table (long short cover unwind zero : String)
    (price_change oi_change : ℚ) : String :=
  if 0 < price_change ∧ 0 < oi_change then long
  else if price_change < 0 ∧ 0 < oi_change then short
  else if 0 < price_change ∧ oi_change < 0 then cover
  else if price_change < 0 ∧ oi_change < 0 then unwind
  else zero

/-- The `oi_flip` expression of `detect_signal_row`
(`src/signals/signal_engine.py`, lines 30–33). -/
def oi_flip_of (oi_diff_prev oi_diff : ℚ) : Bool :=
  decide ((oi_diff_prev > 0 ∧ oi_diff < 0) ∨ (oi_diff_prev < 0 ∧ oi_diff > 0))

/-- Python's `"; ".join(reasons)`. -/
def join_semicolon : List String → String
  | [] => ""
  | a :: as => as.foldl (fun acc x => acc ++ "; " ++ x) a

/-- One input row of `detect_signal_row`: the fields the function reads.
The two price changes are `Option`-valued because the Python code checks them
with `pd.isna` (a `none` models a NaN/missing value). -/
structure SignalRow where
  price_change_CE : Option ℚ
  price_change_PE : Option ℚ
  oi_change_CE : ℚ
  oi_change_PE : ℚ
  oi_diff : ℚ
  oi_diff_prev : ℚ
  iv_ce : ℚ
  iv_pe : ℚ
  strike : ℚ

/-- The body of the `if above_strike:` block of `detect_signal_row`
(`src/signals/signal_engine.py`, lines 46–62), acting on the initial state
`(signal=None, reasons=[], score=0)`. -/
def call_buy_block (ce_bu pe_bu : String) (oi_flip : Bool) (iv_skew : ℚ) :
    Option String × List String × ℕ :=
  if (ce_bu = "SHORT_COVERING" ∨ ce_bu = "LONG_BUILDUP") ∧
      (pe_bu = "LONG_UNWINDING" ∨ pe_bu = "SHORT_BUILDUP") then
    let reasons1 := ["CE " ++ ce_bu ++ ", PE " ++ pe_bu]
    let score1 : ℕ := 2
    let reasons2 := if oi_flip then reasons1 ++ ["OI difference flipped toward CE"]
      else reasons1
    let score2 := if oi_flip then score1 + 1 else score1
    let reasons3 := if iv_skew < 0 then
        reasons2 ++ ["IV skew favourable for calls (CE IV rising)"]
      else reasons2
    let score3 := if iv_skew < 0 then score2 + 1 else score2
    (some "CALL_BUY", reasons3, score3)
  else (none, [], 0)

/-- The body of the `if below_strike:` block of `detect_signal_row`
(`src/signals/signal_engine.py`, lines 68–83), acting on the state `st1`
left by the CALL-BUY block (the Python code keeps appending to `reasons`
and adding to `score`). -/
def put_buy_block (st1 : Option String × List String × ℕ)
    (ce_bu pe_bu : String) (oi_flip : Bool) (iv_skew : ℚ) :
    Option String × List String × ℕ :=
  if (pe_bu = "SHORT_COVERING" ∨ pe_bu = "LONG_BUILDUP") ∧
      (ce_bu = "LONG_UNWINDING" ∨ ce_bu = "SHORT_BUILDUP") then
    let reasons1 := st1.2.1 ++ ["PE " ++ pe_bu ++ ", CE " ++ ce_bu]
    let score1 := st1.2.2 + 2
    let reasons2 := if oi_flip then reasons1 ++ ["OI difference flipped toward PE"]
      else reasons1
    let score2 := if oi_flip then score1 + 1 else score1
    let reasons3 := if iv_skew > 0 then
        reasons2 ++ ["IV skew favourable for puts (PE IV rising)"]
      else reasons2
    let score3 := if iv_skew > 0 then score2 + 1 else score2
    (some "PUT_BUY", reasons3, score3)
  else st1

/-- `detect_signal_row` from `src/signals/signal_engine.py`: returns
`(signal, reason_text, score)`.  The sequential mutation of
`signal`/`reasons`/`score` in the Python body is threaded as the states
`st1` (after the gated CALL-BUY block) and `st2` (after the gated PUT-BUY
block); the gates are `above_strike`/`below_strike`. -/
def detect_signal_row (row : SignalRow) (underlying_spot : ℚ) :
    Option String × String × ℕ :=
  match row.price_change_CE, row.price_change_PE with
  | some pc_ce, some pc_pe =>
    let ce_bu := classify_buildup pc_ce row.oi_change_CE
    let pe_bu := classify_buildup pc_pe row.oi_change_PE
    let oi_flip := oi_flip_of row.oi_diff_prev row.oi_diff
    let iv_skew := row.iv_pe - row.iv_ce
    let st1 : Option String × List String × ℕ :=
      if underlying_spot > row.strike then
        call_buy_block ce_bu pe_bu oi_flip iv_skew
      else (none, [], 0)
    let st2 : Option String × List String × ℕ :=
      if underlying_spot < row.strike then
        put_buy_block st1 ce_bu pe_bu oi_flip iv_skew
      else st1
    (st2.1, if st2.2.1 ≠ [] then join_semicolon st2.2.1 else "", st2.2.2)
  | _, _ => (none, "", 0)

/-- Python `dict.get(k, 0)` on a strike → OI mapping embedded as an
association list. -/
def strike_get (m : List (ℚ × ℤ)) (k : ℚ) : ℤ :=
  (((m.find? (fun p => decide (p.1 = k))).map Prod.snd).getD 0)

/-- Python `dict.get(e, empty-dict)` on the expiry → (strike → OI) mapping. -/
def expiry_get (d : List (String × List (ℚ × ℤ))) (e : String) : List (ℚ × ℤ) :=
  (((d.find? (fun p => decide (p.1 = e))).map Prod.snd).getD [])

/-- `sorted(oi_by_expiry.keys())` in `cross_expiry_rollover`. -/
def sorted_expiries (d : List (String × List (ℚ × ℤ))) : List String :=
  List.insertionSort (· ≤ ·) (d.map Prod.fst)

/-- `sorted(strikes)` where `strikes` is the set union of all inner strike
keys (`cross_expiry_rollover`). -/
def all_strikes (d : List (String × List (ℚ × ℤ))) : List ℚ :=
  List.insertionSort (· ≤ ·) ((d.foldr (fun p acc => p.2.map Prod.fst ++ acc) []).dedup)

/-- `vals = [series[e] for e in expiries]` in `cross_expiry_rollover`: the
per-strike OI series in sorted expiry order, absent strikes defaulting to 0. -/
def strike_series (d : List (String × List (ℚ × ℤ))) (s : ℚ) : List ℤ :=
  (sorted_expiries d).map (fun e => strike_get (expiry_get d e) s)

/-- `near = sum(vals[:max(1, len(vals)//2)])` in `cross_expiry_rollover`. -/
def near_sum (vals : List ℤ) : ℤ :=
  ((vals.take (max 1 (vals.length / 2))).sum)

/-- `far = sum(vals[max(1, len(vals)//2):])` in `cross_expiry_rollover`. -/
def far_sum (vals : List ℤ) : ℤ :=
  ((vals.drop (max 1 (vals.length / 2))).sum)

/-- The per-strike signal rule of `cross_expiry_rollover`
(`src/analytics/analytics.py`, lines 218–221). -/
def rollover_signal (vals : List ℤ) : String :=
  if near_sum vals > 0 ∧ (far_sum vals : ℚ) > (near_sum vals : ℚ) * 1.2 then
    "Rollover to far expiry"
  else
    "Stable/No Rollover"

/-- `cross_expiry_rollover` from `src/analytics/analytics.py` (lines 199–222):
returns the sorted expiries, the per-strike OI time series, and the
per-strike signals. -/
def cross_expiry_rollover (d : List (String × List (ℚ × ℤ))) :
    List String × List (ℚ × List ℤ) × List (ℚ × String) :=
  (sorted_expiries d,
   (all_strikes d).map (fun s => (s, strike_series d s)),
   (all_strikes d).map (fun s => (s, rollover_signal (strike_series d s))))

/-- Sign of a rational (1, −1, or 0), used to state the specification's
"the sign of `oi_diff`" in claim C6. -/
def sign_of (q : ℚ) : ℤ :=
  if 0 < q then 1 else if q < 0 then -1 else 0

/-- Example rollover input with one expiry (used to instantiate C3). -/
def rollover_example : List (String × List (ℚ × ℤ)) := [("E1", [(100, 5)])]

/-- Example signal-engine row with the strike at 100 (used to instantiate C2
and C10). -/
def signal_row_example : SignalRow :=
  ⟨some 1, some (-1), -1, -1, 0, 0, 0, 1, 100⟩

theorem foldl_append_length (l : List String) (acc : String) :
    acc.length ≤ (l.foldl (fun acc x => acc ++ "; " ++ x) acc).length := by
  induction l generalizing acc with
  | nil => simp
  | cons x xs ih =>
      calc acc.length ≤ (acc ++ "; " ++ x).length := by
            simp [String.length_append]
            omega
        _ ≤ _ := ih (acc ++ "; " ++ x)

theorem join_semicolon_cons_ne (a : String) (l : List String) (ha : 0 < a.length) :
    join_semicolon (a :: l) ≠ "" := by
  intro h
  have hlen := foldl_append_length l a
  rw [show (l.foldl (fun acc x => acc ++ "; " ++ x) a) = join_semicolon (a :: l) from rfl,
    h] at hlen
  simp at hlen
  omega

/-- C4: if `timeToExpiryYears ≤ 0` or `vol ≤ 0`, `bs_call_price` returns the
intrinsic value `max(0, S − K)` instead of evaluating the Black–Scholes
closed form. -/
theorem bs_call_price_degenerate_intrinsic (S K r sigma tau : ℝ)
    (h : tau ≤ 0 ∨ sigma ≤ 0) :
    bs_call_price S K r sigma tau = max 0 (S - K) := by
  rw [bs_call_price, if_pos h]
  norm_num

theorem bs_call_price_degenerate_intrinsic_witness :
    bs_call_price 1 2 0 1 0 = 0 := by
  rw [bs_call_price_degenerate_intrinsic 1 2 0 1 0 (Or.inl le_rfl)]
  norm_num

/-- C5: `classify_buildup` (signal engine) and `classify_build_up`
(nse_chain) both realize the five-row sign table of §4.2 exhaustively over
the sign lattice: (>0,>0) ↦ long build-up, (<0,>0) ↦ short build-up,
(>0,<0) ↦ short covering, (<0,<0) ↦ long unwinding, and any pair with a
zero component ↦ neutral. -/
theorem classify_buildup_sign_table (p q : ℚ) :
    (0 < p → 0 < q →
      classify_buildup p q = "LONG_BUILDUP" ∧ classify_build_up p q = "long_build_up") ∧
    (p < 0 → 0 < q →
      classify_buildup p q = "SHORT_BUILDUP" ∧ classify_build_up p q = "short_build_up") ∧
    (0 < p → q < 0 →
      classify_buildup p q = "SHORT_COVERING" ∧ classify_build_up p q = "short_covering") ∧
    (p < 0 → q < 0 →
      classify_buildup p q = "LONG_UNWINDING" ∧ classify_build_up p q = "long_unwinding") ∧
    ((p = 0 ∨ q = 0) →
      classify_buildup p q = "NEUTRAL" ∧ classify_build_up p q = "neutral") := by
  refine ⟨fun hp hq => ?_, fun hp hq => ?_, fun hp hq => ?_, fun hp hq => ?_, fun h0 => ?_⟩
  · simp [classify_buildup, classify_build_up, hp, hq]
  · simp [classify_buildup, classify_build_up, hp, hq, hp.asymm]
  · simp [classify_buildup, classify_build_up, hp, hq, hq.asymm]
  · simp [classify_buildup, classify_build_up, hp, hq, hp.asymm, hq.asymm]
  · rcases h0 with h0 | h0 <;> subst h0 <;>
      simp [classify_buildup, classify_build_up, lt_irrefl]

theorem classify_buildup_sign_table_witness :
    classify_buildup 1 1 = "LONG_BUILDUP" ∧ classify_build_up 1 1 = "long_build_up" :=
  (classify_buildup_sign_table 1 1).1 (by norm_num) (by norm_num)

/-- C6 (counterexample): with `oi_diff_prev = 0` and `oi_diff = 1` the signs
differ (0 vs. 1) yet `oi_flip` is false, so `oi_flip` is not "sign of
`oi_diff` differs from sign of `oi_diff_prev` including zero-crossings". -/
theorem oi_flip_not_sign_difference :
    ¬ (oi_flip_of 0 1 = true ↔ sign_of 1 ≠ sign_of 0) := by
  norm_num [oi_flip_of, sign_of]

/-- C6 (amended): `oi_flip` is true iff `oi_diff_prev` and `oi_diff` have
strictly opposite signs — the signs differ and neither value is zero; when
either value is zero, `oi_flip` is false. -/
theorem oi_flip_iff_strictly_opposite (prev diff : ℚ) :
    oi_flip_of prev diff = true ↔
      (sign_of prev ≠ sign_of diff ∧ prev ≠ 0 ∧ diff ≠ 0) := by
  rcases lt_trichotomy prev 0 with hp | hp | hp
  · rcases lt_trichotomy diff 0 with hd | hd | hd
    · simp [oi_flip_of, sign_of, hp, hd, hp.ne, hd.ne, hp.asymm, hd.asymm]
    · subst hd
      simp [oi_flip_of, sign_of, hp, hp.ne, hp.asymm, lt_irrefl]
    · simp [oi_flip_of, sign_of, hp, hd, hp.ne, hd.ne', hp.asymm, hd.asymm]
  · subst hp
    simp [oi_flip_of, sign_of, lt_irrefl]
  · rcases lt_trichotomy diff 0 with hd | hd | hd
    · simp [oi_flip_of, sign_of, hp, hd, hp.ne', hd.ne, hp.asymm, hd.asymm]
    · subst hd
      simp [oi_flip_of, sign_of, hp, hp.ne', hp.asymm, lt_irrefl]
    · simp [oi_flip_of, sign_of, hp, hd, hp.ne', hd.ne', hp.asymm, hd.asymm]

theorem oi_flip_iff_strictly_opposite_witness :
    oi_flip_of 1 (-1) = true ↔
      (sign_of 1 ≠ sign_of (-1) ∧ (1 : ℚ) ≠ 0 ∧ (-1 : ℚ) ≠ 0) :=
  oi_flip_iff_strictly_opposite 1 (-1)

/-- C7: `premium_misalignment` returns `(market − theoretical)/theoretical`
when the theoretical premium is non-zero; when it is zero, it returns the
market premium if that is non-zero and `0` otherwise — a defined result,
never an error. -/
theorem premium_misalignment_cases (m t : ℝ) :
    (t ≠ 0 → premium_misalignment m t = (m - t) / t) ∧
    (t = 0 → m ≠ 0 → premium_misalignment m t = m) ∧
    (t = 0 → m = 0 → premium_misalignment m t = 0) := by
  refine ⟨fun ht => ?_, fun ht hm => ?_, fun ht hm => ?_⟩
  · rw [premium_misalignment, if_neg ht]
  · rw [premium_misalignment, if_pos ht, if_pos hm]
  · rw [premium_misalignment, if_pos ht, if_neg (not_not_intro hm)]
    norm_num

theorem premium_misalignment_cases_witness :
    premium_misalignment 3 2 = (3 - 2) / 2 :=
  (premium_misalignment_cases 3 2).1 (by norm_num)

/-- C8: `volume_oi_efficiency` is total — it returns `0` whenever
`avg_volume = 0` or `volume = 0` (for any `oi_change`), and otherwise
evaluates the unreduced form `(volume/avg)·(oi_change/volume)` with both
divisors non-zero on that path. -/
theorem volume_oi_efficiency_guarded (v doi : ℤ) (avg : ℚ) :
    ((avg = 0 ∨ v = 0) → volume_oi_efficiency v doi avg = 0) ∧
    (avg ≠ 0 → v ≠ 0 →
      volume_oi_efficiency v doi avg = ((v : ℚ) / avg) * ((doi : ℚ) / (v : ℚ))) := by
  constructor
  · intro h
    rw [volume_oi_efficiency, if_pos h]
    norm_num
  · intro ha hv
    rw [volume_oi_efficiency, if_neg (not_or.mpr ⟨ha, hv⟩)]

theorem volume_oi_efficiency_guarded_witness :
    volume_oi_efficiency 0 5 7 = 0 :=
  (volume_oi_efficiency_guarded 0 5 7).1 (Or.inr rfl)

/-- C1: the facade derives every theoretical put premium by put–call parity:
for all spot, strike, rate, volatility and time-to-expiry, the
`pe_theoretical` of `theoretical_vs_market_entry` equals
`bs_call_price(S,K,r,σ,τ) + K·e^(−rτ) − S`, where `σ` is the row's CE
implied volatility (default 0.2). -/
theorem put_parity_by_construction (spot r s tau : ℝ) (d : SnapshotRow) :
    (theoretical_vs_market_entry spot r s d tau).pe_theoretical =
      bs_call_price spot s r (d.ce_iv.getD 0.2) tau + s * Real.exp (-r * tau) - spot :=
  rfl

/-- C9: when the parity-derived theoretical put premium is exactly 0 and the
market put premium is non-zero, the facade substitutes the market premium as
the theoretical input, so the reported put misalignment is 0 — not the market
premium that the §4.3 zero-theoretical fallback would return. -/
theorem pe_misal_zero_when_parity_put_zero (spot r s tau : ℝ) (d : SnapshotRow)
    (h : (theoretical_vs_market_entry spot r s d tau).pe_theoretical = 0)
    (hm : d.pe_price.getD 0.0 ≠ 0) :
    (theoretical_vs_market_entry spot r s d tau).pe_misal = 0 := by
  have h' : ¬ ((bs_call_price spot s r (d.ce_iv.getD 0.2) tau +
      s * Real.exp (-r * tau) - spot) ≠ 0) := not_not_intro h
  show premium_misalignment (d.pe_price.getD 0.0)
      (if (bs_call_price spot s r (d.ce_iv.getD 0.2) tau +
          s * Real.exp (-r * tau) - spot) ≠ 0
        then bs_call_price spot s r (d.ce_iv.getD 0.2) tau +
          s * Real.exp (-r * tau) - spot
        else d.pe_price.getD 0.0) = 0
  rw [if_neg h', premium_misalignment, if_neg hm]
  simp

theorem pe_misal_zero_when_parity_put_zero_witness :
    (theoretical_vs_market_entry 1 0 1 ⟨none, none, some 5⟩ 0).pe_misal = 0 := by
  apply pe_misal_zero_when_parity_put_zero
  · show bs_call_price 1 1 0 ((none : Option ℝ).getD 0.2) 0 +
      1 * Real.exp (-0 * 0) - 1 = 0
    norm_num [bs_call_price, Real.exp_zero]
  · norm_num

/-- C3: every per-strike signal produced by `cross_expiry_rollover` obeys the
midpoint-split rule: with the strike's ordered OI series split into `near`
(sum of the first `max(1, n/2)` entries) and `far` (sum of the remainder),
the signal is "Rollover to far expiry" iff `near > 0` and `far > near·1.2`,
and otherwise "Stable/No Rollover"; with a single expiry the far half is
empty, so a rollover is never flagged. -/
theorem cross_expiry_rollover_signal_rule
    (d : List (String × List (ℚ × ℤ))) (s : ℚ) (sig : String)
    (h : (s, sig) ∈ (cross_expiry_rollover d).2.2) :
    (sig = "Rollover to far expiry" ↔
        0 < near_sum (strike_series d s) ∧
          (near_sum (strike_series d s) : ℚ) * 1.2 < (far_sum (strike_series d s) : ℚ)) ∧
    (sig = "Rollover to far expiry" ∨ sig = "Stable/No Rollover") ∧
    ((sorted_expiries d).length = 1 → sig = "Stable/No Rollover") := by
  simp only [cross_expiry_rollover, List.mem_map] at h
  obtain ⟨t, ht, heq⟩ := h
  obtain ⟨h1, h2⟩ := Prod.mk.inj heq
  subst h2
  rw [h1] at ht ⊢
  refine ⟨?_, ?_, ?_⟩
  · rw [rollover_signal]
    split_ifs with hc
    · simp [hc]
    · simp [hc, show ("Stable/No Rollover" : String) ≠ "Rollover to far expiry" from by decide]
  · rw [rollover_signal]
    split_ifs with hc
    · exact Or.inl rfl
    · exact Or.inr rfl
  · intro hl
    have hlen : (strike_series d s).length = 1 := by
      simp [strike_series, hl]
    obtain ⟨v, hv⟩ := List.length_eq_one.mp hlen
    have hnear : near_sum [v] = v := by
      simp [near_sum]
    have hfar : far_sum [v] = 0 := by
      simp [far_sum]
    rw [hv, rollover_signal, if_neg]
    rintro ⟨h1, h2⟩
    rw [hnear] at h1
    rw [hnear, hfar, Int.cast_zero] at h2
    have hq : (0 : ℚ) < (v : ℚ) := by exact_mod_cast h1
    nlinarith [hq]

theorem cross_expiry_rollover_signal_rule_witness :
    (("Stable/No Rollover" : String) = "Rollover to far expiry" ↔
        0 < near_sum (strike_series rollover_example 100) ∧
          (near_sum (strike_series rollover_example 100) : ℚ) * 1.2 <
            (far_sum (strike_series rollover_example 100) : ℚ)) ∧
    (("Stable/No Rollover" : String) = "Rollover to far expiry" ∨
      ("Stable/No Rollover" : String) = "Stable/No Rollover") ∧
    ((sorted_expiries rollover_example).length = 1 →
      ("Stable/No Rollover" : String) = "Stable/No Rollover") :=
  cross_expiry_rollover_signal_rule rollover_example 100 "Stable/No Rollover"
    (by norm_num [cross_expiry_rollover, all_strikes, strike_series, sorted_expiries,
      expiry_get, strike_get, rollover_signal, near_sum, far_sum, rollover_example,
      List.insertionSort, List.orderedInsert, List.dedup, List.find?])

theorem append_head_pos (p x : String) (hp : 0 < p.length) : 0 < (p ++ x).length := by
  simp [String.length_append]
  omega

theorem call_reason_ne (x y : String) (l : List String) :
    join_semicolon (("CE " ++ x ++ ", PE " ++ y) :: l) ≠ "" :=
  join_semicolon_cons_ne _ _
    (append_head_pos _ _ (append_head_pos _ _ (append_head_pos _ _ (by decide))))

theorem put_reason_ne (x y : String) (l : List String) :
    join_semicolon (("PE " ++ x ++ ", CE " ++ y) :: l) ≠ "" :=
  join_semicolon_cons_ne _ _
    (append_head_pos _ _ (append_head_pos _ _ (append_head_pos _ _ (by decide))))

theorem call_buy_block_first (ce pe : String) (f : Bool) (skew : ℚ) :
    (call_buy_block ce pe f skew).1 = some "CALL_BUY" ∨
      (call_buy_block ce pe f skew).1 = none := by
  rw [call_buy_block]
  split_ifs <;> first | exact Or.inl rfl | exact Or.inr rfl

theorem put_buy_block_first (st1 : Option String × List String × ℕ)
    (ce pe : String) (f : Bool) (skew : ℚ) :
    (put_buy_block st1 ce pe f skew).1 = some "PUT_BUY" ∨
      put_buy_block st1 ce pe f skew = st1 := by
  rw [put_buy_block]
  split_ifs <;> first | exact Or.inl rfl | exact Or.inr rfl

theorem call_buy_block_cases (ce pe : String) (f : Bool) (skew : ℚ) :
    call_buy_block ce pe f skew = (none, [], 0) ∨
      ((call_buy_block ce pe f skew).1 = some "CALL_BUY" ∧
        ((call_buy_block ce pe f skew).2.2 = 2 ∨ (call_buy_block ce pe f skew).2.2 = 3 ∨
          (call_buy_block ce pe f skew).2.2 = 4) ∧
        (call_buy_block ce pe f skew).2.1 ≠ [] ∧
        join_semicolon (call_buy_block ce pe f skew).2.1 ≠ "") := by
  simp only [call_buy_block]
  split_ifs
  all_goals first
    | exact Or.inl rfl
    | (right
       refine ⟨rfl, by norm_num, by simp, ?_⟩
       simp only [List.singleton_append, List.cons_append, List.nil_append]
       exact call_reason_ne _ _ _)

theorem put_buy_block_cases (ce pe : String) (f : Bool) (skew : ℚ) :
    put_buy_block (none, [], 0) ce pe f skew = (none, [], 0) ∨
      ((put_buy_block (none, [], 0) ce pe f skew).1 = some "PUT_BUY" ∧
        ((put_buy_block (none, [], 0) ce pe f skew).2.2 = 2 ∨
          (put_buy_block (none, [], 0) ce pe f skew).2.2 = 3 ∨
          (put_buy_block (none, [], 0) ce pe f skew).2.2 = 4) ∧
        (put_buy_block (none, [], 0) ce pe f skew).2.1 ≠ [] ∧
        join_semicolon (put_buy_block (none, [], 0) ce pe f skew).2.1 ≠ "") := by
  simp only [put_buy_block]
  split_ifs
  all_goals first
    | exact Or.inl rfl
    | (right
       refine ⟨rfl, by norm_num, by simp, ?_⟩
       simp only [List.singleton_append, List.cons_append, List.nil_append]
       exact put_reason_ne _ _ _)

/-- C2: `detect_signal_row` emits at most one of CALL_BUY and PUT_BUY — the
two branches are gated on `spot > strike` and `spot < strike` respectively,
so when the spot is above the strike the signal is never PUT_BUY, when it is
below it is never CALL_BUY, and when `spot = strike` the signal is `None`
regardless of the build-up classifications. -/
theorem detect_signal_row_exclusive (row : SignalRow) (spot : ℚ) :
    (spot > row.strike → (detect_signal_row row spot).1 ≠ some "PUT_BUY") ∧
    (spot < row.strike → (detect_signal_row row spot).1 ≠ some "CALL_BUY") ∧
    (spot = row.strike → (detect_signal_row row spot).1 = none) := by
  obtain ⟨pce, ppe, oc, op, od, odp, ic, ip, k⟩ := row
  cases pce with
  | none => simp [detect_signal_row]
  | some a =>
    cases ppe with
    | none => simp [detect_signal_row]
    | some b =>
      refine ⟨fun hgt => ?_, fun hlt => ?_, fun heq => ?_⟩
      · simp only [detect_signal_row]
        simp only [if_neg (asymm hgt), if_pos hgt]
        rcases call_buy_block_first (classify_buildup a oc) (classify_buildup b op)
            (oi_flip_of odp od) (ip - ic) with h | h <;> simp [h]
      · simp only [detect_signal_row]
        simp only [if_neg (asymm hlt), if_pos hlt]
        rcases put_buy_block_first (none, [], 0) (classify_buildup a oc) (classify_buildup b op)
            (oi_flip_of odp od) (ip - ic) with h | h <;> simp [h]
      · subst heq
        simp [detect_signal_row, lt_irrefl]

theorem detect_signal_row_exclusive_witness :
    (detect_signal_row signal_row_example 100).1 = none :=
  (detect_signal_row_exclusive signal_row_example 100).2.2 rfl

/-- C10: the score returned by `detect_signal_row` is one of 0, 2, 3, 4
(never 1), the score is 0 iff the signal is `None` iff the reason string is
empty, so every emitted signal carries a score of at least 2 and a non-empty
reason trail. -/
theorem detect_signal_row_outputs (row : SignalRow) (spot : ℚ) :
    ((detect_signal_row row spot).2.2 = 0 ∨ (detect_signal_row row spot).2.2 = 2 ∨
      (detect_signal_row row spot).2.2 = 3 ∨ (detect_signal_row row spot).2.2 = 4) ∧
    ((detect_signal_row row spot).2.2 = 0 ↔ (detect_signal_row row spot).1 = none) ∧
    ((detect_signal_row row spot).1 = none ↔ (detect_signal_row row spot).2.1 = "") := by
  obtain ⟨pce, ppe, oc, op, od, odp, ic, ip, k⟩ := row
  cases pce with
  | none => simp [detect_signal_row]
  | some a =>
    cases ppe with
    | some b =>
      rcases lt_trichotomy spot k with h | h | h
      · simp only [detect_signal_row]
        simp only [if_neg (asymm h), if_pos h]
        rcases put_buy_block_cases (classify_buildup a oc) (classify_buildup b op)
            (oi_flip_of odp od) (ip - ic) with hc | ⟨h1, h2, h3, h4⟩
        · simp [hc]
        · rw [if_pos h3]
          refine ⟨?_, ?_, ?_⟩
          · right; exact h2
          · constructor
            · intro h0; rcases h2 with h2 | h2 | h2 <;> omega
            · intro h0; rw [h1] at h0; exact absurd h0 (by simp)
          · constructor
            · intro h0; rw [h1] at h0; exact absurd h0 (by simp)
            · intro h0; exact absurd h0 h4
      · subst h
        simp [detect_signal_row, lt_irrefl]
      · simp only [detect_signal_row]
        simp only [if_neg (asymm h), if_pos h]
        rcases call_buy_block_cases (classify_buildup a oc) (classify_buildup b op)
            (oi_flip_of odp od) (ip - ic) with hc | ⟨h1, h2, h3, h4⟩
        · simp [hc]
        · rw [if_pos h3]
          refine ⟨?_, ?_, ?_⟩
          · right; exact h2
          · constructor
            · intro h0; rcases h2 with h2 | h2 | h2 <;> omega
            · intro h0; rw [h1] at h0; exact absurd h0 (by simp)
          · constructor
            · intro h0; rw [h1] at h0; exact absurd h0 (by simp)
            · intro h0; exact absurd h0 h4
    | none => simp [detect_signal_row]

theorem detect_signal_row_outputs_witness :
    (detect_signal_row signal_row_example 101).2.2 = 0 ∨
    (detect_signal_row signal_row_example 101).2.2 = 2 ∨
    (detect_signal_row signal_row_example 101).2.2 = 3 ∨
    (detect_signal_row signal_row_example 101).2.2 = 4 :=
  (detect_signal_row_outputs signal_row_example 101).1

end NseAnalytics
